import Mathlib

/-!
Shallow embedding of `src/phip_seq_helper_functions.py`, a single plotting
helper `plot_per_peptide_comparison(df, peptide, diseased_columns,
healthy_columns, clean_label=None)` that draws a two-panel comparison chart
(strip plot and boxplot) for one row of a numeric table, with per-group
mean and sample standard deviation annotations and an optional Welch t-test
p-value annotation.

Modelling decisions, stated once here:

* The table (`pandas.DataFrame`) is a `DFrame`: row labels, column labels,
  and cell contents.  Cells are read in two ways by the source: as numbers
  (`np.array(df.loc[peptide, columns], dtype=float)`, lines 41 and 75) and —
  for the optional `clean_label` column only — as a string (line 25).  The
  intended data is a numeric table of log2 fold changes, so the float
  conversion is total and floats are idealised as `ℚ`.  Row labels are
  taken label-unique, as in the intended data.
* `df.loc` raises a `KeyError` naming the missing row or column label; that
  is the only failure path of the function and is embedded as
  `Except String`.
* Side effects on the figure are embedded as a value of type `Output`
  recording every drawing command the source issues (scatter points,
  mean lines, error bars, statistic annotations, box groups, panel styling,
  p-value annotation, suptitle).  Each `df` access is embedded as a
  state-passing accessor returning the table it leaves behind, so that the
  absence of mutation is a theorem rather than a convention.
* `scipy.stats.ttest_ind(..., equal_var=False)` returns a p-value computed
  by library numerics; it enters the model as a function parameter
  `ttest`.  Likewise `np.random.normal(0, 0.08, size=n)` jitter enters as a
  parameter `jitter` giving the offset of sample `j` of group `i`.
* `np.std(y_vals, ddof=1)` is the square root of `Σ (y - mean)² / (n - 1)`.
  The square root leaves `ℚ`; since the source only compares the standard
  deviation with `0` (line 52) and displays it, and the square root is
  strictly monotone with `√0 = 0`, the model tracks the squared value
  (the radicand) in every place the source holds the standard deviation.
-/

namespace PhipSeq

/-- A `pandas.DataFrame` as `plot_per_peptide_comparison` uses it: row
labels (`index`), column labels (`cols`), numeric cell contents (`cellNum`)
and the string contents of the optional `clean_label` column (`cellStr`). -/
structure DFrame where
  index : List String
  cols : List String
  cellNum : String → String → ℚ
  cellStr : String → String → String

/-- Embeds the read `df.columns` (source lines 24).  A pure read: the table
comes back unchanged. -/
def df_columns (df : DFrame) : List String × DFrame :=
  (df.cols, df)

/-- Embeds the read `np.array(df.loc[peptide, columns], dtype=float)`
(source lines 41 and 75): one value per listed column.  `pandas` raises a
`KeyError` naming the missing row or column label if the row label or any
listed column label is absent.  A pure read: the table comes back
unchanged on success. -/
def df_loc_num (df : DFrame) (peptide : String) (columns : List String) :
    Except String (List ℚ × DFrame) :=
  if peptide ∈ df.index then
    match columns.find? (fun c => decide (c ∉ df.cols)) with
    | some c => .error ("KeyError: " ++ c)
    | none => .ok (columns.map (df.cellNum peptide), df)
  else .error ("KeyError: " ++ peptide)

/-- Embeds the read `df.loc[peptide, 'clean_label']` (source line 25),
reached only when the `clean_label` column exists.  `pandas` raises a
`KeyError` naming the missing label otherwise.  A pure read. -/
def df_loc_str (df : DFrame) (peptide lbl : String) :
    Except String (String × DFrame) :=
  if peptide ∈ df.index then
    if lbl ∈ df.cols then .ok (df.cellStr peptide lbl, df)
    else .error ("KeyError: " ++ lbl)
  else .error ("KeyError: " ++ peptide)

/-- Embeds `np.mean(y_vals)` (source line 49): the arithmetic mean. -/
def np_mean (ys : List ℚ) : ℚ :=
  ys.sum / (ys.length : ℚ)

/-- Embeds `np.std(ys, ddof)` squared, i.e. the radicand
`Σ (y - mean)² / (n - ddof)` that numpy takes the square root of
(source line 50; see the module docstring for why the squared value is
tracked). -/
def np_std_sq (ys : List ℚ) (ddof : ℕ) : ℚ :=
  (ys.map (fun y => (y - np_mean ys) ^ 2)).sum / ((ys.length : ℚ) - (ddof : ℚ))

/-- One `ax1.scatter` call (source lines 46-47): jittered x positions, the
y values, the group colour and the legend entry text. -/
structure ScatterCmd where
  groupIdx : ℕ
  xVals : List ℚ
  yVals : List ℚ
  color : String
  legendText : String
deriving DecidableEq

/-- One `ax1.text` statistics annotation `mean±std` (source lines 54-55);
`stdSq` is the square of the displayed standard deviation. -/
structure StatAnnot where
  groupIdx : ℕ
  mean : ℚ
  stdSq : ℚ
deriving DecidableEq

/-- One group handed to `ax2.boxplot` (source lines 74-86). -/
structure BoxGroup where
  yVals : List ℚ
  label : String
  color : String
deriving DecidableEq

/-- Number format of the p-value text (source line 104): scientific with
two decimals, or fixed-point with four decimals. -/
inductive PFormat
| sci2
| fixed4
deriving DecidableEq

/-- The p-value annotation `ax2.text` (source lines 102-112): the p-value,
its number format, and the number of significance stars appended. -/
structure PvalAnnot where
  pval : ℚ
  format : PFormat
  stars : ℕ
deriving DecidableEq

/-- Styling recorded per panel: y axis text, whether a legend is drawn,
and the panel caption (source lines 57-66 and 91-99). -/
structure PanelStyle where
  ylabel : String
  legend : Bool
  caption : String
deriving DecidableEq

/-- Everything `plot_per_peptide_comparison` draws, in order of the
source: the `plt.subplots(1, 2)` panel count, the `plt.suptitle` text, the
left-panel scatter calls, mean lines, error bars and statistic
annotations, both panels' styling, the boxplot groups, and the optional
p-value annotation. -/
structure Output where
  numPanels : ℕ
  title : String
  scatters : List ScatterCmd
  meanLines : List (ℕ × ℚ)
  errorBars : List (ℕ × ℚ × ℚ)
  annots : List StatAnnot
  leftPanel : PanelStyle
  rightPanel : PanelStyle
  boxGroups : List BoxGroup
  pvalAnnot : Option PvalAnnot
deriving DecidableEq

/-- Everything the left-panel loop body (source lines 40-55) draws for one
group. -/
structure GroupDraw where
  scatters : List ScatterCmd
  meanLines : List (ℕ × ℚ)
  errorBars : List (ℕ × ℚ × ℚ)
  annots : List StatAnnot
deriving DecidableEq

/-- Embeds one iteration of the left-panel loop (source lines 40-55) for
group `i` with values `y_vals`: skipped entirely when the group is empty;
otherwise one scatter call at jittered positions, a mean line, an error
bar when the standard deviation is positive (equivalently, its square is
positive), and the `mean±std` annotation.  `std_val` is
`np.std(y_vals, ddof=1) if len(y_vals) > 1 else 0` (line 50), tracked
squared. -/
def groupStep (jitter : ℕ → ℕ → ℚ) (i : ℕ) (label color : String)
    (y_vals : List ℚ) : GroupDraw :=
  if y_vals.length > 0 then
    let x_vals := (List.range y_vals.length).map (fun j => (i : ℚ) + jitter i j)
    let mean_val := np_mean y_vals
    let stdSq_val := if y_vals.length > 1 then np_std_sq y_vals 1 else 0
    { scatters := [⟨i, x_vals, y_vals, color,
        label ++ " (n=" ++ toString y_vals.length ++ ")"⟩]
      meanLines := [(i, mean_val)]
      errorBars := if stdSq_val > 0 then [(i, mean_val, stdSq_val)] else []
      annots := [⟨i, mean_val, stdSq_val⟩] }
  else ⟨[], [], [], []⟩

/-- Embeds the p-value block (source lines 101-112): when both groups hold
at least two observations, Welch's t-test p-value is computed and
annotated, scientific format and three stars below 0.001, two stars below
0.01, one star below 0.05; otherwise nothing. -/
def mkPval (ttest : List ℚ → List ℚ → ℚ) (dVals hVals : List ℚ) :
    Option PvalAnnot :=
  if 2 ≤ dVals.length ∧ 2 ≤ hVals.length then
    let pval := ttest dVals hVals
    some { pval := pval
           format := if pval < 1 / 1000 then .sci2 else .fixed4
           stars := if pval < 1 / 1000 then 3
             else if pval < 1 / 100 then 2
             else if pval < 1 / 20 then 1 else 0 }
  else none

/-- Embeds the title resolution (source lines 22-27) given the already-read
column list: a provided label wins; otherwise the `clean_label` column
entry when that column exists; otherwise the peptide string, truncated to
its first 60 characters plus an ellipsis when longer than 60. -/
def resolveLabel (df : DFrame) (peptide : String)
    (clean_label : Option String) : Except String (String × DFrame) :=
  match clean_label with
  | some l => .ok (l, df)
  | none =>
    let cd := df_columns df
    if "clean_label" ∈ cd.1 then df_loc_str cd.2 peptide ("clean_label")
    else .ok ((if peptide.length > 60 then peptide.take 60 ++ "..." else peptide), cd.2)

/-- Builds the figure from the title and the values read for each loop
(the left-panel loop reads `dVals`, `hVals`; the boxplot loop re-reads
them as `dVals2`, `hVals2`; source lines 29-114).  The group labels and
colours are the `all_groups` palette of lines 30-31; the p-value gate uses
the first loop's `group_data` (line 102). -/
def buildOutput (ttest : List ℚ → List ℚ → ℚ) (jitter : ℕ → ℕ → ℚ)
    (title : String) (dVals hVals dVals2 hVals2 : List ℚ) : Output :=
  let g0 := groupStep jitter 0 ("ROHHAD") ("#E74C3C") dVals
  let g1 := groupStep jitter 1 ("Healthy") ("#3498DB") hVals
  let boxGroups :=
    (if dVals2.length > 0 then [(⟨dVals2, "ROHHAD", "#E74C3C"⟩ : BoxGroup)] else [])
      ++ (if hVals2.length > 0 then [(⟨hVals2, "Healthy", "#3498DB"⟩ : BoxGroup)] else [])
  { numPanels := 2
    title := title
    scatters := g0.scatters ++ g1.scatters
    meanLines := g0.meanLines ++ g1.meanLines
    errorBars := g0.errorBars ++ g1.errorBars
    annots := g0.annots ++ g1.annots
    leftPanel := ⟨"Log2 Fold Change (vs MockIP)", true, "Individual Sample Values"⟩
    rightPanel := ⟨"Log2 Fold Change (vs MockIP)", false, "Distribution Comparison"⟩
    boxGroups := boxGroups
    pvalAnnot := mkPval ttest dVals hVals }

/-- Embeds `plot_per_peptide_comparison` (source lines 1-116).  Each table
access is threaded state-passing, so the returned `DFrame` is the table as
the function leaves it; the figure side effects are returned as `Output`.
Access order follows the source: title resolution (lines 22-27), the
left-panel loop's two reads (line 41), the boxplot loop's two re-reads
(line 75). -/
def plot_per_peptide_comparison (ttest : List ℚ → List ℚ → ℚ)
    (jitter : ℕ → ℕ → ℚ) (df : DFrame) (peptide : String)
    (diseased_columns healthy_columns : List String)
    (clean_label : Option String) : Except String (Output × DFrame) :=
  match resolveLabel df peptide clean_label with
  | .error e => .error e
  | .ok (title, df1) =>
    match df_loc_num df1 peptide diseased_columns with
    | .error e => .error e
    | .ok (dVals, df2) =>
      match df_loc_num df2 peptide healthy_columns with
      | .error e => .error e
      | .ok (hVals, df3) =>
        match df_loc_num df3 peptide diseased_columns with
        | .error e => .error e
        | .ok (dVals2, df4) =>
          match df_loc_num df4 peptide healthy_columns with
          | .error e => .error e
          | .ok (hVals2, df5) =>
            .ok (buildOutput ttest jitter title dVals hVals dVals2 hVals2, df5)

/-- The title the source resolves in lines 22-27, as a pure function of
the table, the peptide and the optional provided label.  Used to state
what `plot_per_peptide_comparison` puts into `plt.suptitle`. -/
def titleOf (df : DFrame) (peptide : String) (clean_label : Option String) :
    String :=
  match clean_label with
  | some l => l
  | none =>
    if "clean_label" ∈ df.cols then df.cellStr peptide ("clean_label")
    else if peptide.length > 60 then peptide.take 60 ++ "..." else peptide

/-- The arithmetic mean, written from the spec's words "per-group mean":
the sum of the values over their count. -/
def arithMean (ys : List ℚ) : ℚ :=
  ys.sum / (ys.length : ℚ)

/-- The sample variance — the square of the spec's "(sample) standard
deviation", with denominator `n - 1` (ddof = 1): the sum of squared
deviations from the mean over one less than the count. -/
def sampleVariance (ys : List ℚ) : ℚ :=
  (ys.map (fun y => (y - arithMean ys) ^ 2)).sum / ((ys.length : ℚ) - 1)

/-- The behaviour the spec ascribes to BOTH revisions of the function, at
the spec's own level of detail: the per-group statistics (mean and, squared,
sample standard deviation) in group order for the groups that have data,
whether a two-sample t-test was performed, and the number of panels drawn. -/
structure SpecObs where
  stats : List (ℚ × ℚ)
  tTestDone : Bool
  panels : ℕ
deriving DecidableEq

/-- Modelled from the spec: the spec says the repository holds the plotting
utility "in two near-duplicate revisions", but only one revision is present
under `src/`.  The second revision is modelled from the spec's behavioural
description of both revisions: it validates that the row key and all column
names exist (raising otherwise), computes per-group mean and sample standard
deviation, performs a two-sample t-test exactly when both groups have at
least two observations, and renders two panels.  Groups without data
contribute no statistics (the mean of an empty group is undefined). -/
def plot_per_peptide_comparison_rev2 (df : DFrame) (peptide : String)
    (diseased_columns healthy_columns : List String) : Except Unit SpecObs :=
  if peptide ∈ df.index ∧
      ∀ c ∈ diseased_columns ++ healthy_columns, c ∈ df.cols then
    let dv := diseased_columns.map (df.cellNum peptide)
    let hv := healthy_columns.map (df.cellNum peptide)
    .ok ⟨(if dv.length > 0 then [(arithMean dv, sampleVariance dv)] else [])
          ++ (if hv.length > 0 then [(arithMean hv, sampleVariance hv)] else []),
         decide (2 ≤ dv.length ∧ 2 ≤ hv.length), 2⟩
  else .error ()

/-- Abstraction of a run of the embedded source revision to the spec-level
observables of `SpecObs`: the annotated per-group statistics, whether a
p-value annotation was produced, and the panel count. -/
def toObs (r : Except String (Output × DFrame)) : Except Unit SpecObs :=
  match r with
  | .error _ => .error ()
  | .ok (o, _) =>
    .ok ⟨o.annots.map (fun a => (a.mean, a.stdSq)), o.pvalAnnot.isSome, o.numPanels⟩

/-- A concrete four-sample table used to instantiate the theorems: one
peptide row, two diseased and two healthy sample columns. -/
def dfEx : DFrame :=
  ⟨["pepA"], ["d1", "d2", "h1", "h2"],
   fun _ c => if c = "d1" then 1 else if c = "d2" then 3
     else if c = "h1" then 2 else 4,
   fun _ _ => ""⟩

/-- A concrete stand-in for the library t-test: constantly 1/200. -/
def ttest0 : List ℚ → List ℚ → ℚ := fun _ _ => 1 / 200

/-- A concrete stand-in for the jitter source: no jitter. -/
def jitter0 : ℕ → ℕ → ℚ := fun _ _ => 0

/-- The figure the function draws on the concrete table `dfEx`. -/
def exOutput : Output :=
  buildOutput ttest0 jitter0 (titleOf dfEx ("pepA") none)
    ((["d1", "d2"] : List String).map (dfEx.cellNum ("pepA")))
    ((["h1", "h2"] : List String).map (dfEx.cellNum ("pepA")))
    ((["d1", "d2"] : List String).map (dfEx.cellNum ("pepA")))
    ((["h1", "h2"] : List String).map (dfEx.cellNum ("pepA")))

/-- The p-value annotation of the concrete figure `exOutput` (both groups
have two observations, so it exists). -/
def exPval : PvalAnnot :=
  exOutput.pvalAnnot.get (by rfl)

theorem df_loc_num_ok (df : DFrame) (p : String) (cols : List String)
    (hp : p ∈ df.index) (hall : ∀ c ∈ cols, c ∈ df.cols) :
    df_loc_num df p cols = .ok (cols.map (df.cellNum p), df) := by
  unfold df_loc_num
  rw [if_pos hp]
  have hf : cols.find? (fun c => decide (c ∉ df.cols)) = none :=
    List.find?_eq_none.mpr (fun x hx => by simpa using hall x hx)
  rw [hf]

theorem df_loc_num_ok_implies (df : DFrame) (p : String) (cols : List String)
    (v : List ℚ) (df' : DFrame) (h : df_loc_num df p cols = .ok (v, df')) :
    p ∈ df.index ∧ (∀ c ∈ cols, c ∈ df.cols) ∧
      v = cols.map (df.cellNum p) ∧ df' = df := by
  unfold df_loc_num at h
  by_cases hp : p ∈ df.index
  · rw [if_pos hp] at h
    cases hf : cols.find? (fun c => decide (c ∉ df.cols)) with
    | some c => rw [hf] at h; exact absurd h (by simp)
    | none =>
      rw [hf] at h
      simp only [Except.ok.injEq, Prod.mk.injEq] at h
      exact ⟨hp, fun c hc => by simpa using List.find?_eq_none.mp hf c hc,
        h.1.symm, h.2.symm⟩
  · rw [if_neg hp] at h
    exact absurd h (by simp)

theorem df_loc_num_error_char (df : DFrame) (p : String) (cols : List String)
    (e : String) (h : df_loc_num df p cols = .error e) :
    ∃ name, e = "KeyError: " ++ name ∧
      ((name = p ∧ p ∉ df.index) ∨ (name ∈ cols ∧ name ∉ df.cols)) := by
  unfold df_loc_num at h
  by_cases hp : p ∈ df.index
  · rw [if_pos hp] at h
    cases hf : cols.find? (fun c => decide (c ∉ df.cols)) with
    | none => rw [hf] at h; exact absurd h (by simp)
    | some c =>
      rw [hf] at h
      simp only [Except.error.injEq] at h
      exact ⟨c, h.symm,
        .inr ⟨List.mem_of_find?_eq_some hf, by simpa using List.find?_some hf⟩⟩
  · rw [if_neg hp] at h
    simp only [Except.error.injEq] at h
    exact ⟨p, h.symm, .inl ⟨rfl, hp⟩⟩

theorem df_loc_str_ok_implies (df : DFrame) (p lbl s : String) (df' : DFrame)
    (h : df_loc_str df p lbl = .ok (s, df')) :
    p ∈ df.index ∧ lbl ∈ df.cols ∧ s = df.cellStr p lbl ∧ df' = df := by
  unfold df_loc_str at h
  by_cases hp : p ∈ df.index
  · rw [if_pos hp] at h
    by_cases hl : lbl ∈ df.cols
    · rw [if_pos hl] at h
      simp only [Except.ok.injEq, Prod.mk.injEq] at h
      exact ⟨hp, hl, h.1.symm, h.2.symm⟩
    · rw [if_neg hl] at h
      exact absurd h (by simp)
  · rw [if_neg hp] at h
    exact absurd h (by simp)

theorem resolveLabel_ok (df : DFrame) (p : String) (cl : Option String)
    (hp : p ∈ df.index) :
    resolveLabel df p cl = .ok (titleOf df p cl, df) := by
  cases cl with
  | some l => rfl
  | none =>
    by_cases hcl : "clean_label" ∈ df.cols
    · simp [resolveLabel, df_columns, titleOf, df_loc_str, hcl, hp]
    · simp [resolveLabel, df_columns, titleOf, hcl]

theorem resolveLabel_ok_implies (df : DFrame) (p : String) (cl : Option String)
    (ti : String) (df' : DFrame) (h : resolveLabel df p cl = .ok (ti, df')) :
    ti = titleOf df p cl ∧ df' = df := by
  cases cl with
  | some l =>
    simp only [resolveLabel, Except.ok.injEq, Prod.mk.injEq] at h
    exact ⟨h.1.symm, h.2.symm⟩
  | none =>
    by_cases hcl : "clean_label" ∈ df.cols
    · simp only [resolveLabel, df_columns, if_pos hcl] at h
      obtain ⟨hp, hl, hs, hdf⟩ := df_loc_str_ok_implies df p _ ti df' h
      exact ⟨by rw [hs]; simp [titleOf, hcl], hdf⟩
    · simp only [resolveLabel, df_columns, if_neg hcl, Except.ok.injEq,
        Prod.mk.injEq] at h
      exact ⟨by rw [← h.1]; simp [titleOf, hcl], h.2.symm⟩

theorem resolveLabel_error_char (df : DFrame) (p : String) (cl : Option String)
    (e : String) (h : resolveLabel df p cl = .error e) :
    e = "KeyError: " ++ p ∧ p ∉ df.index := by
  cases cl with
  | some l => exact absurd h (by simp [resolveLabel])
  | none =>
    by_cases hcl : "clean_label" ∈ df.cols
    · simp only [resolveLabel, df_columns, if_pos hcl] at h
      unfold df_loc_str at h
      by_cases hp : p ∈ df.index
      · rw [if_pos hp, if_pos hcl] at h
        exact absurd h (by simp)
      · rw [if_neg hp] at h
        simp only [Except.error.injEq] at h
        exact ⟨h.symm, hp⟩
    · simp [resolveLabel, df_columns, if_neg hcl] at h

theorem plot_ok_eq (t : List ℚ → List ℚ → ℚ) (j : ℕ → ℕ → ℚ) (df : DFrame)
    (p : String) (d h : List String) (cl : Option String)
    (hp : p ∈ df.index) (hall : ∀ c ∈ d ++ h, c ∈ df.cols) :
    plot_per_peptide_comparison t j df p d h cl =
      .ok (buildOutput t j (titleOf df p cl) (d.map (df.cellNum p))
        (h.map (df.cellNum p)) (d.map (df.cellNum p)) (h.map (df.cellNum p)),
        df) := by
  have hd : ∀ c ∈ d, c ∈ df.cols := fun c hc => hall c (List.mem_append_left _ hc)
  have hh : ∀ c ∈ h, c ∈ df.cols := fun c hc => hall c (List.mem_append_right _ hc)
  simp only [plot_per_peptide_comparison, resolveLabel_ok df p cl hp,
    df_loc_num_ok df p d hp hd, df_loc_num_ok df p h hp hh]

theorem plot_ok_implies (t : List ℚ → List ℚ → ℚ) (j : ℕ → ℕ → ℚ) (df : DFrame)
    (p : String) (d h : List String) (cl : Option String) (o : Output)
    (dfo : DFrame)
    (hok : plot_per_peptide_comparison t j df p d h cl = .ok (o, dfo)) :
    (p ∈ df.index ∧ ∀ c ∈ d ++ h, c ∈ df.cols) ∧ dfo = df ∧
      o = buildOutput t j (titleOf df p cl) (d.map (df.cellNum p))
        (h.map (df.cellNum p)) (d.map (df.cellNum p)) (h.map (df.cellNum p)) := by
  unfold plot_per_peptide_comparison at hok
  cases hr : resolveLabel df p cl with
  | error e => simp only [hr] at hok; exact absurd hok (by simp)
  | ok v =>
    obtain ⟨ti, df1⟩ := v
    simp only [hr] at hok
    obtain ⟨hti, hdf1⟩ := resolveLabel_ok_implies df p cl ti df1 hr
    rw [hdf1] at hok
    cases hr2 : df_loc_num df p d with
    | error e => simp only [hr2] at hok; exact absurd hok (by simp)
    | ok v2 =>
      obtain ⟨dVals, df2⟩ := v2
      obtain ⟨hp, hcd, hv2, hdf2⟩ := df_loc_num_ok_implies df p d dVals df2 hr2
      simp only [hr2] at hok
      rw [hdf2] at hok
      cases hr3 : df_loc_num df p h with
      | error e => simp only [hr3] at hok; exact absurd hok (by simp)
      | ok v3 =>
        obtain ⟨hVals, df3⟩ := v3
        obtain ⟨-, hch, hv3, hdf3⟩ := df_loc_num_ok_implies df p h hVals df3 hr3
        simp only [hr3] at hok
        rw [hdf3] at hok
        simp only [hr2] at hok
        rw [hdf2] at hok
        simp only [hr3] at hok
        rw [hdf3] at hok
        simp only [Except.ok.injEq, Prod.mk.injEq] at hok
        refine ⟨⟨hp, fun c hc => ?_⟩, hok.2.symm, ?_⟩
        · rcases List.mem_append.mp hc with hcl | hcr
          · exact hcd c hcl
          · exact hch c hcr
        · rw [← hok.1, hti, hv2, hv3]

theorem plot_error_char (t : List ℚ → List ℚ → ℚ) (j : ℕ → ℕ → ℚ) (df : DFrame)
    (p : String) (d h : List String) (cl : Option String) (e : String)
    (herr : plot_per_peptide_comparison t j df p d h cl = .error e) :
    ∃ name, e = "KeyError: " ++ name ∧
      ((name = p ∧ p ∉ df.index) ∨ (name ∈ d ++ h ∧ name ∉ df.cols)) := by
  unfold plot_per_peptide_comparison at herr
  cases hr : resolveLabel df p cl with
  | error e1 =>
    simp only [hr, Except.error.injEq] at herr
    obtain ⟨he, hp⟩ := resolveLabel_error_char df p cl e1 hr
    exact ⟨p, by rw [← herr, he], .inl ⟨rfl, hp⟩⟩
  | ok v =>
    obtain ⟨ti, df1⟩ := v
    simp only [hr] at herr
    obtain ⟨-, hdf1⟩ := resolveLabel_ok_implies df p cl ti df1 hr
    rw [hdf1] at herr
    cases hr2 : df_loc_num df p d with
    | error e2 =>
      simp only [hr2, Except.error.injEq] at herr
      obtain ⟨name, hn, hcase⟩ := df_loc_num_error_char df p d e2 hr2
      exact ⟨name, by rw [← herr, hn],
        hcase.imp (fun x => x) (fun x => ⟨List.mem_append_left _ x.1, x.2⟩)⟩
    | ok v2 =>
      obtain ⟨dVals, df2⟩ := v2
      obtain ⟨-, -, -, hdf2⟩ := df_loc_num_ok_implies df p d dVals df2 hr2
      simp only [hr2] at herr
      rw [hdf2] at herr
      cases hr3 : df_loc_num df p h with
      | error e3 =>
        simp only [hr3, Except.error.injEq] at herr
        obtain ⟨name, hn, hcase⟩ := df_loc_num_error_char df p h e3 hr3
        exact ⟨name, by rw [← herr, hn],
          hcase.imp (fun x => x) (fun x => ⟨List.mem_append_right _ x.1, x.2⟩)⟩
      | ok v3 =>
        obtain ⟨hVals, df3⟩ := v3
        obtain ⟨-, -, -, hdf3⟩ := df_loc_num_ok_implies df p h hVals df3 hr3
        simp only [hr3] at herr
        rw [hdf3] at herr
        simp only [hr2] at herr
        rw [hdf2] at herr
        simp only [hr3] at herr
        exact absurd herr (by simp)

theorem groupStep_nil (j : ℕ → ℕ → ℚ) (i : ℕ) (lb co : String) :
    groupStep j i lb co [] = ⟨[], [], [], []⟩ := rfl

theorem groupStep_annots (j : ℕ → ℕ → ℚ) (i : ℕ) (lb co : String)
    (ys : List ℚ) :
    (groupStep j i lb co ys).annots =
      if ys = [] then []
      else [⟨i, np_mean ys, if ys.length > 1 then np_std_sq ys 1 else 0⟩] := by
  cases ys with
  | nil => rfl
  | cons a ys =>
    unfold groupStep
    rw [if_pos (by simp : (a :: ys).length > 0),
      if_neg (by simp : ¬(a :: ys = []))]

theorem groupStep_scatters (j : ℕ → ℕ → ℚ) (i : ℕ) (lb co : String)
    (ys : List ℚ) :
    (groupStep j i lb co ys).scatters =
      if ys = [] then []
      else [⟨i, (List.range ys.length).map (fun k => (i : ℚ) + j i k), ys, co,
        lb ++ " (n=" ++ toString ys.length ++ ")"⟩] := by
  cases ys with
  | nil => rfl
  | cons a ys =>
    unfold groupStep
    rw [if_pos (by simp : (a :: ys).length > 0),
      if_neg (by simp : ¬(a :: ys = []))]

theorem buildOutput_annots (t : List ℚ → List ℚ → ℚ) (j : ℕ → ℕ → ℚ)
    (ti : String) (dv hv dv2 hv2 : List ℚ) :
    (buildOutput t j ti dv hv dv2 hv2).annots =
      (groupStep j 0 ("ROHHAD") ("#E74C3C") dv).annots
        ++ (groupStep j 1 ("Healthy") ("#3498DB") hv).annots := rfl

theorem buildOutput_scatters (t : List ℚ → List ℚ → ℚ) (j : ℕ → ℕ → ℚ)
    (ti : String) (dv hv dv2 hv2 : List ℚ) :
    (buildOutput t j ti dv hv dv2 hv2).scatters =
      (groupStep j 0 ("ROHHAD") ("#E74C3C") dv).scatters
        ++ (groupStep j 1 ("Healthy") ("#3498DB") hv).scatters := rfl

theorem buildOutput_boxGroups (t : List ℚ → List ℚ → ℚ) (j : ℕ → ℕ → ℚ)
    (ti : String) (dv hv dv2 hv2 : List ℚ) :
    (buildOutput t j ti dv hv dv2 hv2).boxGroups =
      (if dv2.length > 0 then [(⟨dv2, "ROHHAD", "#E74C3C"⟩ : BoxGroup)] else [])
        ++ (if hv2.length > 0 then [(⟨hv2, "Healthy", "#3498DB"⟩ : BoxGroup)]
          else []) := rfl

theorem buildOutput_pval (t : List ℚ → List ℚ → ℚ) (j : ℕ → ℕ → ℚ)
    (ti : String) (dv hv dv2 hv2 : List ℚ) :
    (buildOutput t j ti dv hv dv2 hv2).pvalAnnot = mkPval t dv hv := rfl

theorem buildOutput_title (t : List ℚ → List ℚ → ℚ) (j : ℕ → ℕ → ℚ)
    (ti : String) (dv hv dv2 hv2 : List ℚ) :
    (buildOutput t j ti dv hv dv2 hv2).title = ti := rfl

theorem buildOutput_numPanels (t : List ℚ → List ℚ → ℚ) (j : ℕ → ℕ → ℚ)
    (ti : String) (dv hv dv2 hv2 : List ℚ) :
    (buildOutput t j ti dv hv dv2 hv2).numPanels = 2 := rfl

theorem buildOutput_leftPanel (t : List ℚ → List ℚ → ℚ) (j : ℕ → ℕ → ℚ)
    (ti : String) (dv hv dv2 hv2 : List ℚ) :
    (buildOutput t j ti dv hv dv2 hv2).leftPanel =
      ⟨"Log2 Fold Change (vs MockIP)", true, "Individual Sample Values"⟩ := rfl

theorem buildOutput_rightPanel (t : List ℚ → List ℚ → ℚ) (j : ℕ → ℕ → ℚ)
    (ti : String) (dv hv dv2 hv2 : List ℚ) :
    (buildOutput t j ti dv hv dv2 hv2).rightPanel =
      ⟨"Log2 Fold Change (vs MockIP)", false, "Distribution Comparison"⟩ := rfl

theorem np_mean_eq_arithMean (ys : List ℚ) : np_mean ys = arithMean ys := rfl

theorem stdSq_eq_sampleVariance (ys : List ℚ) (hys : ys ≠ []) :
    (if ys.length > 1 then np_std_sq ys 1 else 0) = sampleVariance ys := by
  by_cases h1 : ys.length > 1
  · rw [if_pos h1]
    simp [np_std_sq, sampleVariance, np_mean, arithMean]
  · rw [if_neg h1]
    have hlen : ys.length = 1 := by
      have := List.length_pos.mpr hys
      omega
    obtain ⟨a, rfl⟩ := List.length_eq_one.mp hlen
    simp [sampleVariance, arithMean]

theorem mkPval_isSome (t : List ℚ → List ℚ → ℚ) (dv hv : List ℚ) :
    (mkPval t dv hv).isSome = decide (2 ≤ dv.length ∧ 2 ≤ hv.length) := by
  unfold mkPval
  split_ifs with hc <;> simp [hc]

theorem mkPval_none (t : List ℚ → List ℚ → ℚ) (dv hv : List ℚ)
    (hc : ¬(2 ≤ dv.length ∧ 2 ≤ hv.length)) : mkPval t dv hv = none := by
  unfold mkPval
  rw [if_neg hc]

theorem mkPval_some_implies (t : List ℚ → List ℚ → ℚ) (dv hv : List ℚ)
    (a : PvalAnnot) (h : mkPval t dv hv = some a) :
    a.pval = t dv hv ∧
    a.format = (if t dv hv < 1 / 1000 then PFormat.sci2 else PFormat.fixed4) ∧
    a.stars = (if t dv hv < 1 / 1000 then 3 else if t dv hv < 1 / 100 then 2
      else if t dv hv < 1 / 20 then 1 else 0) := by
  unfold mkPval at h
  split_ifs at h with hc
  simp only [Option.some.injEq] at h
  subst h
  exact ⟨rfl, rfl, rfl⟩

theorem groupStep_annot_pairs (j : ℕ → ℕ → ℚ) (i : ℕ) (lb co : String)
    (ys : List ℚ) :
    ((groupStep j i lb co ys).annots).map (fun a => (a.mean, a.stdSq)) =
      if 0 < ys.length then [(arithMean ys, sampleVariance ys)] else [] := by
  rcases eq_or_ne ys [] with rfl | hys
  · rfl
  · rw [groupStep_annots, if_neg hys, if_pos (List.length_pos.mpr hys),
      stdSq_eq_sampleVariance _ hys]
    simp [np_mean_eq_arithMean]

theorem exPlot_eq :
    plot_per_peptide_comparison ttest0 jitter0 dfEx ("pepA")
      ["d1", "d2"] ["h1", "h2"] none = .ok (exOutput, dfEx) :=
  plot_ok_eq ttest0 jitter0 dfEx ("pepA") ["d1", "d2"] ["h1", "h2"] none
    (by decide) (by decide)

/-- C1: `plot_per_peptide_comparison` raises a descriptive error exactly
when the row key (peptide) or a name in `diseased_columns` or
`healthy_columns` is absent from the table, and this existence check is
the only failure behaviour: the run succeeds if and only if the row key
and all listed column names are present, and every error it raises is a
`KeyError` naming either the absent row key or an absent listed column. -/
theorem C1_missing_data_is_only_error (t : List ℚ → List ℚ → ℚ)
    (j : ℕ → ℕ → ℚ) (df : DFrame) (p : String) (d h : List String)
    (cl : Option String) :
    ((plot_per_peptide_comparison t j df p d h cl).isOk = true ↔
      (p ∈ df.index ∧ ∀ c ∈ d ++ h, c ∈ df.cols)) ∧
    ∀ e, plot_per_peptide_comparison t j df p d h cl = .error e →
      ∃ name, e = "KeyError: " ++ name ∧
        ((name = p ∧ p ∉ df.index) ∨ (name ∈ d ++ h ∧ name ∉ df.cols)) := by
  constructor
  · constructor
    · intro hok
      cases hr : plot_per_peptide_comparison t j df p d h cl with
      | error e => rw [hr] at hok; exact absurd hok (by simp [Except.isOk, Except.toBool])
      | ok v => exact (plot_ok_implies t j df p d h cl v.1 v.2 (by rw [hr])).1
    · intro hpres
      rw [plot_ok_eq t j df p d h cl hpres.1 hpres.2]
      rfl
  · intro e he
    exact plot_error_char t j df p d h cl e he

/-- C1 witness: on the concrete table, with the row key and all listed
columns present, the run succeeds. -/
theorem C1_missing_data_is_only_error_witness :
    (plot_per_peptide_comparison ttest0 jitter0 dfEx ("pepA")
      ["d1", "d2"] ["h1", "h2"] none).isOk = true :=
  (C1_missing_data_is_only_error ttest0 jitter0 dfEx ("pepA")
    ["d1", "d2"] ["h1", "h2"] none).1.mpr (by decide)

/-- C2: in a successful run, the p-value annotation exists if and only if
both groups hold at least two observations for the selected row, and when
it exists its p-value is the two-sample t-test statistic of the two
groups' value lists. -/
theorem C2_ttest_iff_two_observations (t : List ℚ → List ℚ → ℚ)
    (j : ℕ → ℕ → ℚ) (df : DFrame) (p : String) (d h : List String)
    (cl : Option String) (o : Output) (dfo : DFrame)
    (hok : plot_per_peptide_comparison t j df p d h cl = .ok (o, dfo)) :
    (o.pvalAnnot.isSome = true ↔ (2 ≤ d.length ∧ 2 ≤ h.length)) ∧
    ∀ a, o.pvalAnnot = some a →
      a.pval = t (d.map (df.cellNum p)) (h.map (df.cellNum p)) := by
  obtain ⟨-, -, ho⟩ := plot_ok_implies t j df p d h cl o dfo hok
  subst ho
  rw [buildOutput_pval]
  constructor
  · rw [mkPval_isSome]
    simp
  · intro a ha
    exact (mkPval_some_implies _ _ _ _ ha).1

/-- C2 witness: on the concrete table both groups have two observations,
so the p-value annotation exists. -/
theorem C2_ttest_iff_two_observations_witness :
    exOutput.pvalAnnot.isSome = true :=
  (C2_ttest_iff_two_observations ttest0 jitter0 dfEx ("pepA")
    ["d1", "d2"] ["h1", "h2"] none exOutput dfEx exPlot_eq).1.mpr (by decide)

/-- C8: `plot_per_peptide_comparison` never mutates the input table: every
table access in the embedding is a read threaded through the state, and a
successful run returns the table exactly as it was given. -/
theorem C8_table_not_mutated (t : List ℚ → List ℚ → ℚ) (j : ℕ → ℕ → ℚ)
    (df : DFrame) (p : String) (d h : List String) (cl : Option String)
    (o : Output) (dfo : DFrame)
    (hok : plot_per_peptide_comparison t j df p d h cl = .ok (o, dfo)) :
    dfo = df :=
  (plot_ok_implies t j df p d h cl o dfo hok).2.1

/-- C8 witness: the concrete run hands back the concrete table. -/
theorem C8_table_not_mutated_witness : dfEx = dfEx :=
  C8_table_not_mutated ttest0 jitter0 dfEx ("pepA") ["d1", "d2"] ["h1", "h2"]
    none exOutput dfEx exPlot_eq

/-- C3: in a successful run, every per-group statistics annotation carries
(squared) the sample standard deviation of that group's values — the
ddof = 1 estimator with denominator n-1 — and each nonempty group gets
such an annotation. -/
theorem C3_std_is_sample_std (t : List ℚ → List ℚ → ℚ) (j : ℕ → ℕ → ℚ)
    (df : DFrame) (p : String) (d h : List String) (cl : Option String)
    (o : Output) (dfo : DFrame)
    (hok : plot_per_peptide_comparison t j df p d h cl = .ok (o, dfo)) :
    (∀ a ∈ o.annots,
      (a.groupIdx = 0 → a.stdSq = sampleVariance (d.map (df.cellNum p))) ∧
      (a.groupIdx = 1 → a.stdSq = sampleVariance (h.map (df.cellNum p)))) ∧
    (d ≠ [] → (⟨0, np_mean (d.map (df.cellNum p)),
      sampleVariance (d.map (df.cellNum p))⟩ : StatAnnot) ∈ o.annots) ∧
    (h ≠ [] → (⟨1, np_mean (h.map (df.cellNum p)),
      sampleVariance (h.map (df.cellNum p))⟩ : StatAnnot) ∈ o.annots) := by
  obtain ⟨-, -, ho⟩ := plot_ok_implies t j df p d h cl o dfo hok
  subst ho
  rw [buildOutput_annots, groupStep_annots, groupStep_annots]
  refine ⟨?_, ?_, ?_⟩
  · intro a ha
    rcases List.mem_append.mp ha with h0 | h1
    · by_cases hdm : (d.map (df.cellNum p)) = []
      · rw [if_pos hdm] at h0
        simp at h0
      · rw [if_neg hdm] at h0
        rw [List.mem_singleton.mp h0]
        refine ⟨fun _ => stdSq_eq_sampleVariance _ hdm, fun hx => absurd hx (by simp)⟩
    · by_cases hhm : (h.map (df.cellNum p)) = []
      · rw [if_pos hhm] at h1
        simp at h1
      · rw [if_neg hhm] at h1
        rw [List.mem_singleton.mp h1]
        refine ⟨fun hx => absurd hx (by simp), fun _ => stdSq_eq_sampleVariance _ hhm⟩
  · intro hd
    have hdm : (d.map (df.cellNum p)) ≠ [] := by simpa using hd
    exact List.mem_append.mpr
      (.inl (by rw [if_neg hdm, ← stdSq_eq_sampleVariance _ hdm]; exact List.mem_singleton.mpr rfl))
  · intro hh
    have hhm : (h.map (df.cellNum p)) ≠ [] := by simpa using hh
    exact List.mem_append.mpr
      (.inr (by rw [if_neg hhm, ← stdSq_eq_sampleVariance _ hhm]; exact List.mem_singleton.mpr rfl))

/-- C3 witness: on the concrete table the diseased group is nonempty and
its annotation carries mean and sample variance of its two values. -/
theorem C3_std_is_sample_std_witness :
    (⟨0, np_mean ((["d1", "d2"] : List String).map (dfEx.cellNum ("pepA"))),
      sampleVariance ((["d1", "d2"] : List String).map (dfEx.cellNum ("pepA")))⟩
      : StatAnnot) ∈ exOutput.annots :=
  (C3_std_is_sample_std ttest0 jitter0 dfEx ("pepA") ["d1", "d2"] ["h1", "h2"]
    none exOutput dfEx exPlot_eq).2.1 (by decide)

/-- C4: in a successful run the chart title is the provided label when one
is given; otherwise the `clean_label` column entry for the selected row
when that column exists; otherwise the peptide itself when its length is
at most 60 characters, and its first 60 characters followed by an ellipsis
when longer. -/
theorem C4_title_resolution (t : List ℚ → List ℚ → ℚ) (j : ℕ → ℕ → ℚ)
    (df : DFrame) (p : String) (d h : List String) (cl : Option String)
    (o : Output) (dfo : DFrame)
    (hok : plot_per_peptide_comparison t j df p d h cl = .ok (o, dfo)) :
    (∀ l, cl = some l → o.title = l) ∧
    (cl = none → "clean_label" ∈ df.cols →
      o.title = df.cellStr p ("clean_label")) ∧
    (cl = none → "clean_label" ∉ df.cols → p.length ≤ 60 → o.title = p) ∧
    (cl = none → "clean_label" ∉ df.cols → 60 < p.length →
      o.title = p.take 60 ++ "...") := by
  obtain ⟨-, -, ho⟩ := plot_ok_implies t j df p d h cl o dfo hok
  subst ho
  rw [buildOutput_title]
  refine ⟨?_, ?_, ?_, ?_⟩
  · intro l hl
    subst hl
    rfl
  · intro hn hmem
    subst hn
    simp [titleOf, hmem]
  · intro hn hmem hle
    subst hn
    simp only [titleOf, if_neg hmem]
    rw [if_neg (by omega)]
  · intro hn hmem hgt
    subst hn
    simp only [titleOf, if_neg hmem]
    rw [if_pos (by omega)]

/-- C4 witness: on the concrete table with no label provided and no
`clean_label` column, the title is the short peptide string itself. -/
theorem C4_title_resolution_witness : exOutput.title = "pepA" :=
  (C4_title_resolution ttest0 jitter0 dfEx ("pepA") ["d1", "d2"] ["h1", "h2"]
    none exOutput dfEx exPlot_eq).2.2.1 rfl (by decide) (by decide)

/-- C5: in a successful run, every per-group statistics annotation carries
as its central value the arithmetic mean of the selected row's values over
that group's listed columns, and each nonempty group gets such an
annotation. -/
theorem C5_mean_is_arithmetic_mean (t : List ℚ → List ℚ → ℚ)
    (j : ℕ → ℕ → ℚ) (df : DFrame) (p : String) (d h : List String)
    (cl : Option String) (o : Output) (dfo : DFrame)
    (hok : plot_per_peptide_comparison t j df p d h cl = .ok (o, dfo)) :
    (∀ a ∈ o.annots,
      (a.groupIdx = 0 → a.mean = arithMean (d.map (df.cellNum p))) ∧
      (a.groupIdx = 1 → a.mean = arithMean (h.map (df.cellNum p)))) ∧
    (d ≠ [] → (⟨0, arithMean (d.map (df.cellNum p)),
      if (d.map (df.cellNum p)).length > 1 then np_std_sq (d.map (df.cellNum p)) 1
      else 0⟩ : StatAnnot) ∈ o.annots) ∧
    (h ≠ [] → (⟨1, arithMean (h.map (df.cellNum p)),
      if (h.map (df.cellNum p)).length > 1 then np_std_sq (h.map (df.cellNum p)) 1
      else 0⟩ : StatAnnot) ∈ o.annots) := by
  obtain ⟨-, -, ho⟩ := plot_ok_implies t j df p d h cl o dfo hok
  subst ho
  rw [buildOutput_annots, groupStep_annots, groupStep_annots]
  refine ⟨?_, ?_, ?_⟩
  · intro a ha
    rcases List.mem_append.mp ha with h0 | h1
    · by_cases hdm : (d.map (df.cellNum p)) = []
      · rw [if_pos hdm] at h0
        simp at h0
      · rw [if_neg hdm] at h0
        rw [List.mem_singleton.mp h0]
        exact ⟨fun _ => rfl, fun hx => absurd hx (by simp)⟩
    · by_cases hhm : (h.map (df.cellNum p)) = []
      · rw [if_pos hhm] at h1
        simp at h1
      · rw [if_neg hhm] at h1
        rw [List.mem_singleton.mp h1]
        exact ⟨fun hx => absurd hx (by simp), fun _ => rfl⟩
  · intro hd
    have hdm : (d.map (df.cellNum p)) ≠ [] := by simpa using hd
    exact List.mem_append.mpr
      (.inl (by rw [if_neg hdm]; exact List.mem_singleton.mpr rfl))
  · intro hh
    have hhm : (h.map (df.cellNum p)) ≠ [] := by simpa using hh
    exact List.mem_append.mpr
      (.inr (by rw [if_neg hhm]; exact List.mem_singleton.mpr rfl))

/-- C5 witness: on the concrete table the healthy group is nonempty and
its annotation carries the arithmetic mean of its two values. -/
theorem C5_mean_is_arithmetic_mean_witness :
    (⟨1, arithMean ((["h1", "h2"] : List String).map (dfEx.cellNum ("pepA"))),
      if ((["h1", "h2"] : List String).map (dfEx.cellNum ("pepA"))).length > 1
      then np_std_sq ((["h1", "h2"] : List String).map (dfEx.cellNum ("pepA"))) 1
      else 0⟩ : StatAnnot) ∈ exOutput.annots :=
  (C5_mean_is_arithmetic_mean ttest0 jitter0 dfEx ("pepA") ["d1", "d2"]
    ["h1", "h2"] none exOutput dfEx exPlot_eq).2.2 (by decide)

/-- C6: the spec's two near-duplicate revisions of the plotting utility are
behaviourally equivalent: the revision embedded from the source agrees, on
every input and at the spec's level of observables (per-group statistics,
whether a t-test was done, panel count, and the success/failure outcome of
the existence validation), with the second revision as modelled from the
spec. -/
theorem C6_revisions_equivalent (t : List ℚ → List ℚ → ℚ) (j : ℕ → ℕ → ℚ)
    (df : DFrame) (p : String) (d h : List String) (cl : Option String) :
    toObs (plot_per_peptide_comparison t j df p d h cl) =
      plot_per_peptide_comparison_rev2 df p d h := by
  by_cases hpres : p ∈ df.index ∧ ∀ c ∈ d ++ h, c ∈ df.cols
  · rw [plot_ok_eq t j df p d h cl hpres.1 hpres.2]
    unfold toObs plot_per_peptide_comparison_rev2
    rw [if_pos hpres]
    simp only [Except.ok.injEq, SpecObs.mk.injEq]
    refine ⟨?_, ?_, rfl⟩
    · rw [buildOutput_annots, List.map_append, groupStep_annot_pairs,
        groupStep_annot_pairs]
    · rw [buildOutput_pval, mkPval_isSome]
  · cases hr : plot_per_peptide_comparison t j df p d h cl with
    | ok v =>
      exact absurd (plot_ok_implies t j df p d h cl v.1 v.2 (by rw [hr])).1 hpres
    | error e =>
      unfold toObs plot_per_peptide_comparison_rev2
      rw [if_neg hpres]

/-- C6 witness: the equivalence instantiated on the concrete table. -/
theorem C6_revisions_equivalent_witness :
    toObs (plot_per_peptide_comparison ttest0 jitter0 dfEx ("pepA")
      ["d1", "d2"] ["h1", "h2"] none) =
      plot_per_peptide_comparison_rev2 dfEx ("pepA") ["d1", "d2"] ["h1", "h2"] :=
  C6_revisions_equivalent ttest0 jitter0 dfEx ("pepA") ["d1", "d2"]
    ["h1", "h2"] none

/-- C7: a successful run renders exactly two panels: the left panel styled
with y label and legend and captioned as the per-sample view, the right
panel styled with the same y label, no legend, captioned as the
distribution view; the boxplot shows the same per-group value lists, in
the same order and group colours, as the scatter; and every scatter call
is one group's values, in that group's colour and legend entry, at x
positions that are the group index plus the jitter offsets. -/
theorem C7_two_panel_layout (t : List ℚ → List ℚ → ℚ) (j : ℕ → ℕ → ℚ)
    (df : DFrame) (p : String) (d h : List String) (cl : Option String)
    (o : Output) (dfo : DFrame)
    (hok : plot_per_peptide_comparison t j df p d h cl = .ok (o, dfo)) :
    o.numPanels = 2 ∧
    o.leftPanel = ⟨"Log2 Fold Change (vs MockIP)", true,
      "Individual Sample Values"⟩ ∧
    o.rightPanel = ⟨"Log2 Fold Change (vs MockIP)", false,
      "Distribution Comparison"⟩ ∧
    o.scatters.map ScatterCmd.yVals = o.boxGroups.map BoxGroup.yVals ∧
    o.scatters.map ScatterCmd.color = o.boxGroups.map BoxGroup.color ∧
    ∀ s ∈ o.scatters,
      ((s.groupIdx = 0 ∧ s.color = "#E74C3C" ∧
          s.legendText = "ROHHAD" ++ " (n=" ++ toString s.yVals.length ++ ")") ∨
        (s.groupIdx = 1 ∧ s.color = "#3498DB" ∧
          s.legendText = "Healthy" ++ " (n=" ++ toString s.yVals.length ++ ")")) ∧
      s.xVals = (List.range s.yVals.length).map
        (fun k => (s.groupIdx : ℚ) + j s.groupIdx k) := by
  obtain ⟨-, -, ho⟩ := plot_ok_implies t j df p d h cl o dfo hok
  subst ho
  refine ⟨rfl, rfl, rfl, ?_, ?_, ?_⟩
  · rw [buildOutput_scatters, buildOutput_boxGroups, groupStep_scatters,
      groupStep_scatters]
    by_cases hd : d = [] <;> by_cases hh : h = [] <;>
      simp [hd, hh, List.length_pos, List.map_eq_nil_iff]
  · rw [buildOutput_scatters, buildOutput_boxGroups, groupStep_scatters,
      groupStep_scatters]
    by_cases hd : d = [] <;> by_cases hh : h = [] <;>
      simp [hd, hh, List.length_pos, List.map_eq_nil_iff]
  · rw [buildOutput_scatters, groupStep_scatters, groupStep_scatters]
    intro s hs
    rcases List.mem_append.mp hs with h0 | h1
    · by_cases hdm : (d.map (df.cellNum p)) = []
      · rw [if_pos hdm] at h0
        simp at h0
      · rw [if_neg hdm] at h0
        rw [List.mem_singleton.mp h0]
        exact ⟨.inl ⟨rfl, rfl, rfl⟩, rfl⟩
    · by_cases hhm : (h.map (df.cellNum p)) = []
      · rw [if_pos hhm] at h1
        simp at h1
      · rw [if_neg hhm] at h1
        rw [List.mem_singleton.mp h1]
        exact ⟨.inr ⟨rfl, rfl, rfl⟩, rfl⟩

/-- C7 witness: the concrete run draws two panels. -/
theorem C7_two_panel_layout_witness : exOutput.numPanels = 2 :=
  (C7_two_panel_layout ttest0 jitter0 dfEx ("pepA") ["d1", "d2"] ["h1", "h2"]
    none exOutput dfEx exPlot_eq).1

/-- C9: when a group's column list yields zero observations (and the row
key and the other columns are present), the run still succeeds, that group
contributes no scatter call, no statistics annotation and no box, and no
t-test is attempted. -/
theorem C9_empty_group_skipped (t : List ℚ → List ℚ → ℚ) (j : ℕ → ℕ → ℚ)
    (df : DFrame) (p : String) (d h : List String) (cl : Option String)
    (hp : p ∈ df.index) (hall : ∀ c ∈ d ++ h, c ∈ df.cols)
    (hor : d = [] ∨ h = []) :
    (plot_per_peptide_comparison t j df p d h cl).isOk = true ∧
    ∀ o dfo, plot_per_peptide_comparison t j df p d h cl = .ok (o, dfo) →
      o.pvalAnnot = none ∧
      (d = [] → (∀ s ∈ o.scatters, s.groupIdx ≠ 0) ∧
        (∀ a ∈ o.annots, a.groupIdx ≠ 0) ∧
        (∀ b ∈ o.boxGroups, b.label ≠ "ROHHAD")) ∧
      (h = [] → (∀ s ∈ o.scatters, s.groupIdx ≠ 1) ∧
        (∀ a ∈ o.annots, a.groupIdx ≠ 1) ∧
        (∀ b ∈ o.boxGroups, b.label ≠ "Healthy")) := by
  constructor
  · rw [plot_ok_eq t j df p d h cl hp hall]
    rfl
  · intro o dfo heq
    obtain ⟨-, -, ho⟩ := plot_ok_implies t j df p d h cl o dfo heq
    subst ho
    refine ⟨?_, ?_, ?_⟩
    · rw [buildOutput_pval]
      apply mkPval_none
      rcases hor with rfl | rfl <;> simp
    · intro hd
      subst hd
      rw [buildOutput_scatters, buildOutput_annots, buildOutput_boxGroups,
        groupStep_scatters, groupStep_scatters, groupStep_annots,
        groupStep_annots]
      by_cases hh : h = [] <;>
        simp [hh, List.length_pos, List.map_eq_nil_iff]
    · intro hh
      subst hh
      rw [buildOutput_scatters, buildOutput_annots, buildOutput_boxGroups,
        groupStep_scatters, groupStep_scatters, groupStep_annots,
        groupStep_annots]
      by_cases hd : d = [] <;>
        simp [hd, List.length_pos, List.map_eq_nil_iff]

/-- C9 witness: with an empty diseased column list the concrete run still
succeeds. -/
theorem C9_empty_group_skipped_witness :
    (plot_per_peptide_comparison ttest0 jitter0 dfEx ("pepA")
      ([] : List String) ["h1", "h2"] none).isOk = true :=
  (C9_empty_group_skipped ttest0 jitter0 dfEx ("pepA") [] ["h1", "h2"] none
    (by decide) (by decide) (.inl rfl)).1

/-- C10: whenever a p-value annotation is produced, its number format is
scientific with two decimals exactly when p is below 0.001 and fixed-point
with four decimals otherwise, and it carries three stars exactly when
p is below 0.001, two exactly when 0.001 is at most p and p is below 0.01, one
exactly when 0.01 is at most p and p is below 0.05, and none exactly when
0.05 is at most p. -/
theorem C10_pval_format_and_stars (t : List ℚ → List ℚ → ℚ) (j : ℕ → ℕ → ℚ)
    (df : DFrame) (p : String) (d h : List String) (cl : Option String)
    (o : Output) (dfo : DFrame) (a : PvalAnnot)
    (hok : plot_per_peptide_comparison t j df p d h cl = .ok (o, dfo))
    (ha : o.pvalAnnot = some a) :
    (a.format = PFormat.sci2 ↔ a.pval < 1 / 1000) ∧
    (a.stars = 3 ↔ a.pval < 1 / 1000) ∧
    (a.stars = 2 ↔ 1 / 1000 ≤ a.pval ∧ a.pval < 1 / 100) ∧
    (a.stars = 1 ↔ 1 / 100 ≤ a.pval ∧ a.pval < 1 / 20) ∧
    (a.stars = 0 ↔ 1 / 20 ≤ a.pval) := by
  obtain ⟨-, -, ho⟩ := plot_ok_implies t j df p d h cl o dfo hok
  subst ho
  rw [buildOutput_pval] at ha
  obtain ⟨hpv, hfmt, hstars⟩ := mkPval_some_implies _ _ _ _ ha
  rw [hpv]
  by_cases h1 : t (d.map (df.cellNum p)) (h.map (df.cellNum p)) < 1 / 1000
  · have hf : a.format = PFormat.sci2 := by rw [hfmt, if_pos h1]
    have hs : a.stars = 3 := by rw [hstars, if_pos h1]
    rw [hf, hs]
    exact ⟨⟨fun _ => h1, fun _ => rfl⟩,
      ⟨fun _ => h1, fun _ => rfl⟩,
      ⟨fun hx => absurd hx (by decide), fun hx => absurd h1 (not_lt.mpr hx.1)⟩,
      ⟨fun hx => absurd hx (by decide),
        fun hx => absurd h1 (not_lt.mpr (le_trans (by norm_num) hx.1))⟩,
      ⟨fun hx => absurd hx (by decide),
        fun hge => absurd h1 (not_lt.mpr (le_trans (by norm_num) hge))⟩⟩
  · by_cases h2 : t (d.map (df.cellNum p)) (h.map (df.cellNum p)) < 1 / 100
    · have hf : a.format = PFormat.fixed4 := by rw [hfmt, if_neg h1]
      have hs : a.stars = 2 := by rw [hstars, if_neg h1, if_pos h2]
      rw [hf, hs]
      exact ⟨⟨fun hx => absurd hx (by decide), fun hx => absurd hx h1⟩,
        ⟨fun hx => absurd hx (by decide), fun hx => absurd hx h1⟩,
        ⟨fun _ => ⟨not_lt.mp h1, h2⟩, fun _ => rfl⟩,
        ⟨fun hx => absurd hx (by decide), fun hx => absurd hx.1 (not_le.mpr h2)⟩,
        ⟨fun hx => absurd hx (by decide),
          fun hge => absurd h2 (not_lt.mpr (le_trans (by norm_num) hge))⟩⟩
    · by_cases h3 : t (d.map (df.cellNum p)) (h.map (df.cellNum p)) < 1 / 20
      · have hf : a.format = PFormat.fixed4 := by rw [hfmt, if_neg h1]
        have hs : a.stars = 1 := by rw [hstars, if_neg h1, if_neg h2, if_pos h3]
        rw [hf, hs]
        exact ⟨⟨fun hx => absurd hx (by decide), fun hx => absurd hx h1⟩,
          ⟨fun hx => absurd hx (by decide), fun hx => absurd hx h1⟩,
          ⟨fun hx => absurd hx (by decide), fun hx => absurd hx.2 h2⟩,
          ⟨fun _ => ⟨not_lt.mp h2, h3⟩, fun _ => rfl⟩,
          ⟨fun hx => absurd hx (by decide), fun hge => absurd h3 (not_lt.mpr hge)⟩⟩
      · have hf : a.format = PFormat.fixed4 := by rw [hfmt, if_neg h1]
        have hs : a.stars = 0 := by rw [hstars, if_neg h1, if_neg h2, if_neg h3]
        rw [hf, hs]
        exact ⟨⟨fun hx => absurd hx (by decide), fun hx => absurd hx h1⟩,
          ⟨fun hx => absurd hx (by decide), fun hx => absurd hx h1⟩,
          ⟨fun hx => absurd hx (by decide), fun hx => absurd hx.2 h2⟩,
          ⟨fun hx => absurd hx (by decide), fun hx => absurd hx.2 h3⟩,
          ⟨fun _ => not_lt.mp h3, fun _ => rfl⟩⟩

/-- C10 witness: the format and star thresholds instantiated at the
concrete run's p-value annotation. -/
theorem C10_pval_format_and_stars_witness :
    (exPval.format = PFormat.sci2 ↔ exPval.pval < 1 / 1000) ∧
    (exPval.stars = 3 ↔ exPval.pval < 1 / 1000) ∧
    (exPval.stars = 2 ↔ 1 / 1000 ≤ exPval.pval ∧ exPval.pval < 1 / 100) ∧
    (exPval.stars = 1 ↔ 1 / 100 ≤ exPval.pval ∧ exPval.pval < 1 / 20) ∧
    (exPval.stars = 0 ↔ 1 / 20 ≤ exPval.pval) :=
  C10_pval_format_and_stars ttest0 jitter0 dfEx ("pepA") ["d1", "d2"]
    ["h1", "h2"] none exOutput dfEx exPval exPlot_eq
    (Option.some_get (by rfl)).symm

end PhipSeq
